import Mathlib

set_option maxRecDepth 8000

/-!
Shallow embedding of the geometry/scaling core of the bc-market-client
candlestick chart (`src/app/components/item-candlestick-chart/
item-candlestick-chart.component.ts` plus the data model in
`src/app/models/candlestick-chart.model.ts`).

Modelling conventions:
* JS numbers are modelled as exact rationals (`ℚ`).  The only operation in
  the core that can leave the finite numbers is the division by
  `priceRange` inside the price-to-pixel computation (component lines
  221-224); a division whose divisor is `0` yields `NaN`/`±Infinity` in JS,
  which we model as `none : Option ℚ`.  `Math.min`, `Math.max` and
  `Math.abs` propagate `NaN`, hence the `Option`-lifted versions below.
* Y-axis labels are produced by `Number.toLocaleString`, a host/locale
  formatting API outside the core; the model keeps the numeric label
  values (`List ℚ`) that the code passes to the formatter.
* DOM element creation (`renderer.createElement` …) is presentation; the
  model records the geometry values the component writes into the styles
  (`x`, wick top/height, body top/height, colour class, volume-bar
  height), which is the `CandleGeometry` value object of the spec.
-/

/-- One OHLCV data point (`CandlestickData` in candlestick-chart.model.ts). -/
structure CandlestickData where
  time : String
  «open» : ℚ
  high : ℚ
  low : ℚ
  close : ℚ
  volume : ℚ
deriving Repr, DecidableEq

/-- Market data for an item (`MarketData` in candlestick-chart.model.ts). -/
structure MarketData where
  dataPoints : List CandlestickData
  currentPrice : ℚ
  priceChange : ℚ
  trend : String
  totalVolume : ℚ
  periodHigh : ℚ
  periodLow : ℚ
  activeListings : ℚ
  itemName : String
  timePeriod : String
deriving Repr, DecidableEq

/-- Chart configuration (`ChartConfig` in candlestick-chart.model.ts).
`yAxisLabels` holds the numeric values handed to `toLocaleString`. -/
structure ChartConfig where
  chartHeight : ℚ
  chartWidth : ℚ
  candleWidth : ℚ
  maxPrice : ℚ
  minPrice : ℚ
  yAxisLabels : List ℚ
  xAxisLabels : List String
deriving Repr, DecidableEq

/-- The component's built-in sample dataset (`sampleMarketData`, lines 31-50). -/
def sampleMarketData : MarketData :=
  { dataPoints :=
      [ { time := "6h ago", «open» := 1180, high := 1220, low := 1150, close := 1200, volume := 45 }
      , { time := "5h ago", «open» := 1200, high := 1250, low := 1180, close := 1230, volume := 67 }
      , { time := "4h ago", «open» := 1230, high := 1280, low := 1200, close := 1210, volume := 89 }
      , { time := "3h ago", «open» := 1210, high := 1240, low := 950, close := 980, volume := 156 }
      , { time := "2h ago", «open» := 980, high := 1100, low := 891, close := 1050, volume := 234 }
      , { time := "1h ago", «open» := 1050, high := 1200, low := 1040, close := 1180, volume := 178 }
      , { time := "Now", «open» := 1180, high := 1389, low := 1160, close := 1247, volume := 98 } ]
  , currentPrice := 1247
  , priceChange := 12/5
  , trend := "up"
  , totalVolume := 1423
  , periodHigh := 1389
  , periodLow := 891
  , activeListings := 47
  , itemName := "Dragon Sword"
  , timePeriod := "Last 24 hours" }

/-- The component's initial `chartConfig` literal (lines 55-63); the string
labels '1,400' … '800' are kept as their numeric values. -/
def initChartConfig : ChartConfig :=
  { chartHeight := 360
  , chartWidth := 1040
  , candleWidth := 20
  , maxPrice := 1400
  , minPrice := 800
  , yAxisLabels := [1400, 1300, 1200, 1100, 1000, 900, 800]
  , xAxisLabels := ["6h ago", "5h ago", "4h ago", "3h ago", "2h ago", "1h ago", "Now"] }

/-- The flattened price list built at lines 136-139: for each point, push
`high, low, open, close`. -/
def pricesOf (md : MarketData) : List ℚ :=
  md.dataPoints.flatMap fun p => [p.high, p.low, p.«open», p.close]

/-- `Math.min(...prices)` over a list known non-empty at the call site
(lines 135, 141); the `0` default branch is unreachable there. -/
def listMin : List ℚ → ℚ
  | [] => 0
  | x :: xs => xs.foldl min x

/-- `Math.max(...prices)` over a list known non-empty at the call site
(lines 135, 142); the `0` default branch is unreachable there. -/
def listMax : List ℚ → ℚ
  | [] => 0
  | x :: xs => xs.foldl max x

/-- `minDataPrice` (line 141). -/
def minDataPrice (md : MarketData) : ℚ := listMin (pricesOf md)

/-- `maxDataPrice` (line 142). -/
def maxDataPrice (md : MarketData) : ℚ := listMax (pricesOf md)

/-- `padding = (maxDataPrice - minDataPrice) * 0.1` (line 145). -/
def pricePadding (md : MarketData) : ℚ :=
  (maxDataPrice md - minDataPrice md) * (1/10)

/-- `Math.floor((minDataPrice - padding) / 100) * 100` (line 146). -/
def computedMinPrice (md : MarketData) : ℚ :=
  (⌊(minDataPrice md - pricePadding md) / 100⌋ : ℚ) * 100

/-- `Math.ceil((maxDataPrice + padding) / 100) * 100` (line 147). -/
def computedMaxPrice (md : MarketData) : ℚ :=
  (⌈(maxDataPrice md + pricePadding md) / 100⌉ : ℚ) * 100

/-- Y-axis label values (lines 150-154): 7 values `maxPrice - i*step`
with `step = (maxPrice - minPrice) / 6`. -/
def yLabelsOf (minP maxP : ℚ) : List ℚ :=
  (List.range 7).map fun (i : ℕ) => maxP - (i : ℚ) * ((maxP - minP) / 6)

/-- `initializeData` (lines 128-161): substitute the sample data when the
input is null, then — only when the data-point list is non-empty —
recompute `minPrice`, `maxPrice`, the y-axis label values, and the x-axis
labels (the latter only when the stored label count differs from the
series length).  Returns the pair (marketData, chartConfig) after the
mutations. -/
def initData (input : Option MarketData) (cfg : ChartConfig) :
    MarketData × ChartConfig :=
  let md := input.getD sampleMarketData
  if 0 < md.dataPoints.length then
    let minP := computedMinPrice md
    let maxP := computedMaxPrice md
    let xs :=
      if cfg.xAxisLabels.length ≠ md.dataPoints.length then
        md.dataPoints.map (fun p => p.time)
      else cfg.xAxisLabels
    (md, { cfg with
            minPrice := minP
          , maxPrice := maxP
          , yAxisLabels := yLabelsOf minP maxP
          , xAxisLabels := xs })
  else (md, cfg)

/-- JS `a - b` over possibly-NaN operands. -/
def jsSub : Option ℚ → Option ℚ → Option ℚ
  | some a, some b => some (a - b)
  | _, _ => none

/-- JS `Math.min(a, b)`: returns NaN when either argument is NaN. -/
def jsMin : Option ℚ → Option ℚ → Option ℚ
  | some a, some b => some (min a b)
  | _, _ => none

/-- JS `Math.max(a, b)`: returns NaN when either argument is NaN. -/
def jsMax : Option ℚ → Option ℚ → Option ℚ
  | some a, some b => some (max a b)
  | _, _ => none

/-- JS `Math.abs`: NaN-propagating. -/
def jsAbs : Option ℚ → Option ℚ
  | some a => some |a|
  | none => none

/-- The price-to-pixel expression shared by lines 221-224:
`chartHeight - ((price - minPrice) / priceRange * chartHeight) + 20`.
When `priceRange = 0` the JS division yields `NaN` (or `±Infinity`),
modelled as `none`. -/
def toY (cfg : ChartConfig) (price : ℚ) : Option ℚ :=
  let priceRange := cfg.maxPrice - cfg.minPrice
  if priceRange = 0 then none
  else some (cfg.chartHeight - (price - cfg.minPrice) / priceRange * cfg.chartHeight + 20)

/-- `this.marketData?.dataPoints.length || 1` (line 217): the slot count,
falling back to 1 when the list is empty. -/
def slotCount (md : MarketData) : ℚ :=
  if md.dataPoints.length = 0 then 1 else (md.dataPoints.length : ℚ)

/-- `spacing = chartWidth / (dataPoints.length || 1)` (line 217). -/
def spacingOf (md : MarketData) (cfg : ChartConfig) : ℚ :=
  cfg.chartWidth / slotCount md

/-- The geometry values `createCandlestick` writes into the candlestick,
wick, body and volume-bar element styles (spec `CandleGeometry`). -/
structure CandleGeometry where
  x : ℚ
  wickTop : Option ℚ
  wickHeight : Option ℚ
  bodyTop : Option ℚ
  bodyHeight : Option ℚ
  isGreen : Bool
  volumeBarHeight : ℚ
deriving Repr, DecidableEq

/-- `createCandlestick` (lines 214-262), restricted to the computed
geometry values: `x = 20 + index*spacing + (spacing - candleWidth)/2`,
`wickTop = highY`, `wickHeight = lowY - highY`,
`bodyTop = min(openY, closeY)`, `bodyHeight = max(|closeY - openY|, 2)`,
`isGreen = close > open`, `volumeBarHeight = volume / 250 * 60`. -/
def createCandlestick (md : MarketData) (cfg : ChartConfig)
    (data : CandlestickData) (index : ℕ) : CandleGeometry :=
  let spacing := spacingOf md cfg
  let x := 20 + (index : ℚ) * spacing + (spacing - cfg.candleWidth) / 2
  let openY := toY cfg data.«open»
  let closeY := toY cfg data.close
  let highY := toY cfg data.high
  let lowY := toY cfg data.low
  { x := x
  , wickTop := highY
  , wickHeight := jsSub lowY highY
  , bodyTop := jsMin openY closeY
  , bodyHeight := jsMax (jsAbs (jsSub closeY openY)) (some 2)
  , isGreen := decide (data.close > data.«open»)
  , volumeBarHeight := data.volume / 250 * 60 }

/-- The geometry list one `renderChart` pass produces: one
`createCandlestick` per data point, in series order (lines 197-205). -/
def layoutGeometries (md : MarketData) (cfg : ChartConfig) : List CandleGeometry :=
  md.dataPoints.enum.map fun p => createCandlestick md cfg p.2 p.1

/-- The component state the modelled operations read and write:
`this.marketData`, `this.chartConfig`, and the currently appended
candlestick geometry (the `candlesticks` element list). -/
structure ComponentState where
  marketData : Option MarketData
  chartConfig : ChartConfig
  geometries : List CandleGeometry
deriving Repr, DecidableEq

/-- The component state at construction: null input, the literal
`chartConfig`, no chart elements. -/
def initState : ComponentState :=
  { marketData := none, chartConfig := initChartConfig, geometries := [] }

/-- `renderChart` (lines 183-209): when the data is absent or empty, warn
and return, leaving the previously appended elements in place; otherwise
clear the chart and append one candlestick per point. -/
def renderChart (s : ComponentState) : ComponentState :=
  match s.marketData with
  | none => s
  | some md =>
    if md.dataPoints.length = 0 then s
    else { s with geometries := layoutGeometries md s.chartConfig }

/-- A data-change trigger (`ngOnChanges` on `marketData`, lines 97-104,
and the first `ngOnInit`/`ngAfterViewInit` pass): store the new input,
run `initializeData`, then `renderChart`. -/
def setSeries (s : ComponentState) (input : Option MarketData) : ComponentState :=
  let p := initData input s.chartConfig
  renderChart { s with marketData := some p.1, chartConfig := p.2 }

/-- A container-width notification (both the ResizeObserver callback,
lines 168-175, and the `onResize` fallback, lines 321-330, share this
guard): when the observed width is positive, set
`chartWidth = width - 80` and re-render; otherwise do nothing. -/
def onResize (s : ComponentState) (containerWidth : ℚ) : ComponentState :=
  if 0 < containerWidth then
    renderChart { s with chartConfig := { s.chartConfig with chartWidth := containerWidth - 80 } }
  else s

/-! Concrete datasets used to exercise the model. -/

/-- The flat single-point series of the spec's degenerate scenario:
`[{open:100, high:100, low:100, close:100, volume:0}]`. -/
def flatMarketData : MarketData :=
  { dataPoints :=
      [ { time := "t", «open» := 100, high := 100, low := 100, close := 100, volume := 0 } ]
  , currentPrice := 100, priceChange := 0, trend := "flat", totalVolume := 0
  , periodHigh := 100, periodLow := 100, activeListings := 0
  , itemName := "Flat Item", timePeriod := "t" }

/-- A flat single-point series whose common price 150 is not a multiple
of 100. -/
def flat150MarketData : MarketData :=
  { dataPoints :=
      [ { time := "t", «open» := 150, high := 150, low := 150, close := 150, volume := 0 } ]
  , currentPrice := 150, priceChange := 0, trend := "flat", totalVolume := 0
  , periodHigh := 150, periodLow := 150, activeListings := 0
  , itemName := "Flat Item", timePeriod := "t" }

/-- A series containing a point that violates the (unenforced) OHLC
invariant: `low > high`. -/
def invertedMarketData : MarketData :=
  { dataPoints :=
      [ { time := "t", «open» := 100, high := 100, low := 300, close := 100, volume := 0 } ]
  , currentPrice := 100, priceChange := 0, trend := "flat", totalVolume := 0
  , periodHigh := 100, periodLow := 300, activeListings := 0
  , itemName := "Inverted Item", timePeriod := "t" }

/-- A market data value with no data points at all. -/
def emptyMarketData : MarketData :=
  { dataPoints := []
  , currentPrice := 0, priceChange := 0, trend := "flat", totalVolume := 0
  , periodHigh := 0, periodLow := 0, activeListings := 0
  , itemName := "Empty Item", timePeriod := "t" }

/-- A 7-point series (the same length as the component's initial
`xAxisLabels`) whose time labels differ from the stored ones. -/
def renamedTimesMarketData : MarketData :=
  { dataPoints :=
      [ { time := "T0", «open» := 1, high := 2, low := 1, close := 2, volume := 0 }
      , { time := "T1", «open» := 1, high := 2, low := 1, close := 2, volume := 0 }
      , { time := "T2", «open» := 1, high := 2, low := 1, close := 2, volume := 0 }
      , { time := "T3", «open» := 1, high := 2, low := 1, close := 2, volume := 0 }
      , { time := "T4", «open» := 1, high := 2, low := 1, close := 2, volume := 0 }
      , { time := "T5", «open» := 1, high := 2, low := 1, close := 2, volume := 0 }
      , { time := "T6", «open» := 1, high := 2, low := 1, close := 2, volume := 0 } ]
  , currentPrice := 2, priceChange := 0, trend := "flat", totalVolume := 0
  , periodHigh := 2, periodLow := 1, activeListings := 0
  , itemName := "Renamed Item", timePeriod := "t" }

/-- A ready component state holding the sample data, with no appended
chart elements. -/
def readyState : ComponentState :=
  { marketData := some sampleMarketData, chartConfig := initChartConfig, geometries := [] }

/-- The same data and configuration as `readyState` but with a stale,
unrelated geometry list, to exercise independence from stored state. -/
def readyStateAlt : ComponentState :=
  { marketData := some sampleMarketData, chartConfig := initChartConfig
  , geometries :=
      [ { x := 0, wickTop := none, wickHeight := none, bodyTop := none
        , bodyHeight := none, isGreen := false, volumeBarHeight := 0 } ] }

/-! Helper lemmas about the price aggregation. -/

theorem foldl_min_le_init (l : List ℚ) : ∀ x : ℚ, l.foldl min x ≤ x := by
  induction l with
  | nil => intro x; simp
  | cons y ys ih =>
    intro x
    simpa using le_trans (ih (min x y)) (min_le_left x y)

theorem foldl_min_le_of_mem {a : ℚ} {l : List ℚ} (h : a ∈ l) :
    ∀ x : ℚ, l.foldl min x ≤ a := by
  induction l with
  | nil => cases h
  | cons y ys ih =>
    intro x
    rcases List.mem_cons.mp h with rfl | hmem
    · simpa using le_trans (foldl_min_le_init ys (min x a)) (min_le_right x a)
    · simpa using ih hmem (min x y)

theorem init_le_foldl_max (l : List ℚ) : ∀ x : ℚ, x ≤ l.foldl max x := by
  induction l with
  | nil => intro x; simp
  | cons y ys ih =>
    intro x
    simpa using le_trans (le_max_left x y) (ih (max x y))

theorem mem_le_foldl_max {a : ℚ} {l : List ℚ} (h : a ∈ l) :
    ∀ x : ℚ, a ≤ l.foldl max x := by
  induction l with
  | nil => cases h
  | cons y ys ih =>
    intro x
    rcases List.mem_cons.mp h with rfl | hmem
    · simpa using le_trans (le_max_right x a) (init_le_foldl_max ys (max x a))
    · simpa using ih hmem (max x y)

theorem listMin_le_of_mem {a : ℚ} {l : List ℚ} (h : a ∈ l) : listMin l ≤ a := by
  cases l with
  | nil => cases h
  | cons y ys =>
    rcases List.mem_cons.mp h with rfl | hmem
    · exact foldl_min_le_init ys a
    · exact foldl_min_le_of_mem hmem y

theorem le_listMax_of_mem {a : ℚ} {l : List ℚ} (h : a ∈ l) : a ≤ listMax l := by
  cases l with
  | nil => cases h
  | cons y ys =>
    rcases List.mem_cons.mp h with rfl | hmem
    · exact init_le_foldl_max ys a
    · exact mem_le_foldl_max hmem y

theorem mem_pricesOf {pt : CandlestickData} {md : MarketData}
    (h : pt ∈ md.dataPoints) :
    pt.high ∈ pricesOf md ∧ pt.low ∈ pricesOf md ∧
      pt.«open» ∈ pricesOf md ∧ pt.close ∈ pricesOf md := by
  refine ⟨?_, ?_, ?_, ?_⟩ <;>
    exact List.mem_flatMap.mpr ⟨pt, h, by simp⟩

theorem minDataPrice_le_maxDataPrice {md : MarketData} (h : md.dataPoints ≠ []) :
    minDataPrice md ≤ maxDataPrice md := by
  cases hdp : md.dataPoints with
  | nil => exact absurd hdp h
  | cons p rest =>
    have hp : p ∈ md.dataPoints := by rw [hdp]; exact List.mem_cons_self p rest
    have hmem := (mem_pricesOf hp).1
    exact le_trans (listMin_le_of_mem hmem) (le_listMax_of_mem hmem)

theorem pricePadding_nonneg {md : MarketData} (h : md.dataPoints ≠ []) :
    0 ≤ pricePadding md := by
  have := minDataPrice_le_maxDataPrice h
  unfold pricePadding
  nlinarith

theorem computedMinPrice_le (md : MarketData) :
    computedMinPrice md ≤ minDataPrice md - pricePadding md := by
  have hfl := Int.floor_le ((minDataPrice md - pricePadding md) / 100)
  have h100 : (0:ℚ) < 100 := by norm_num
  calc computedMinPrice md
      = (⌊(minDataPrice md - pricePadding md) / 100⌋ : ℚ) * 100 := rfl
    _ ≤ ((minDataPrice md - pricePadding md) / 100) * 100 :=
        mul_le_mul_of_nonneg_right hfl (le_of_lt h100)
    _ = minDataPrice md - pricePadding md := by field_simp

theorem le_computedMaxPrice (md : MarketData) :
    maxDataPrice md + pricePadding md ≤ computedMaxPrice md := by
  have hce := Int.le_ceil ((maxDataPrice md + pricePadding md) / 100)
  have h100 : (0:ℚ) < 100 := by norm_num
  calc maxDataPrice md + pricePadding md
      = ((maxDataPrice md + pricePadding md) / 100) * 100 := by field_simp
    _ ≤ (⌈(maxDataPrice md + pricePadding md) / 100⌉ : ℚ) * 100 :=
        mul_le_mul_of_nonneg_right hce (le_of_lt h100)
    _ = computedMaxPrice md := rfl

theorem computedMinPrice_le_computedMaxPrice {md : MarketData}
    (h : md.dataPoints ≠ []) : computedMinPrice md ≤ computedMaxPrice md := by
  have h1 := computedMinPrice_le md
  have h2 := le_computedMaxPrice md
  have h3 := minDataPrice_le_maxDataPrice h
  have h4 := pricePadding_nonneg h
  linarith

theorem initData_of_ne_nil (md : MarketData) (h : md.dataPoints ≠ [])
    (c : ChartConfig) :
    initData (some md) c =
      (md, { c with
              minPrice := computedMinPrice md
            , maxPrice := computedMaxPrice md
            , yAxisLabels := yLabelsOf (computedMinPrice md) (computedMaxPrice md)
            , xAxisLabels :=
                if c.xAxisLabels.length ≠ md.dataPoints.length then
                  md.dataPoints.map (fun p => p.time)
                else c.xAxisLabels }) := by
  simp [initData, List.length_pos.mpr h]

theorem layoutGeometries_length (md : MarketData) (cfg : ChartConfig) :
    (layoutGeometries md cfg).length = md.dataPoints.length := by
  simp [layoutGeometries]

theorem toY_of_range_ne {cfg : ChartConfig}
    (hr : cfg.maxPrice - cfg.minPrice ≠ 0) (price : ℚ) :
    toY cfg price =
      some (cfg.chartHeight -
        (price - cfg.minPrice) / (cfg.maxPrice - cfg.minPrice) * cfg.chartHeight + 20) := by
  simp [toY, hr]

theorem createCandlestick_x (md : MarketData) (cfg : ChartConfig)
    (d : CandlestickData) (i : ℕ) :
    (createCandlestick md cfg d i).x =
      20 + (i : ℚ) * spacingOf md cfg + (spacingOf md cfg - cfg.candleWidth) / 2 := rfl

theorem createCandlestick_wickTop (md : MarketData) (cfg : ChartConfig)
    (d : CandlestickData) (i : ℕ) :
    (createCandlestick md cfg d i).wickTop = toY cfg d.high := rfl

theorem createCandlestick_wickHeight (md : MarketData) (cfg : ChartConfig)
    (d : CandlestickData) (i : ℕ) :
    (createCandlestick md cfg d i).wickHeight =
      jsSub (toY cfg d.low) (toY cfg d.high) := rfl

theorem createCandlestick_bodyTop (md : MarketData) (cfg : ChartConfig)
    (d : CandlestickData) (i : ℕ) :
    (createCandlestick md cfg d i).bodyTop =
      jsMin (toY cfg d.«open») (toY cfg d.close) := rfl

theorem createCandlestick_bodyHeight (md : MarketData) (cfg : ChartConfig)
    (d : CandlestickData) (i : ℕ) :
    (createCandlestick md cfg d i).bodyHeight =
      jsMax (jsAbs (jsSub (toY cfg d.close) (toY cfg d.«open»))) (some 2) := rfl

/-! Claim theorems. -/

/-- C1: the claim says that for a flat series (computed `maxPrice ==
minPrice`) `toY` does not divide by zero and maps every price to the
vertical midpoint `chartHeight/2 + 20 = 200`.  The code has no such
guard: on the spec's own degenerate input the computed scale is
`maxPrice = minPrice = 100` and the `toY` expression divides by the zero
price range, producing NaN (modelled `none`) — not the midpoint — and the
rendered wick top of the single candle is NaN as well. -/
theorem c1_flat_series_toY_not_midpoint :
    (initData (some flatMarketData) initChartConfig).2.maxPrice =
      (initData (some flatMarketData) initChartConfig).2.minPrice ∧
    toY (initData (some flatMarketData) initChartConfig).2 100 = none ∧
    ((setSeries initState (some flatMarketData)).geometries.map fun g => g.wickTop)
      = [none] := by
  refine ⟨?_, ?_, ?_⟩ <;> with_unfolding_all rfl

/-- C2 counterexample: an empty series is NOT replaced by the built-in
fallback.  After `setSeries` with an empty series, the stored market data
is still the empty series and no geometry was produced — not the 7
fallback shapes the claim requires. -/
theorem c2_counterexample_empty_not_replaced :
    emptyMarketData.dataPoints = [] ∧
    (setSeries initState (some emptyMarketData)).marketData = some emptyMarketData ∧
    (setSeries initState (some emptyMarketData)).geometries.length = 0 := by
  refine ⟨?_, ?_, ?_⟩ <;> with_unfolding_all rfl

/-- C2 amended: only a null input is replaced by the built-in fallback
series (yielding exactly 7 geometry shapes, those of the sample
dataset).  An empty series is kept as is: scale recomputation is skipped
and rendering returns early, retaining the previous geometry. -/
theorem c2_amended_null_fallback_empty_kept (s : ComponentState) (md : MarketData) :
    ((setSeries s none).marketData = some sampleMarketData ∧
     (setSeries s none).geometries.length = 7 ∧
     (setSeries s none).geometries
       = layoutGeometries sampleMarketData (setSeries s none).chartConfig) ∧
    (md.dataPoints = [] →
      (setSeries s (some md)).marketData = some md ∧
      (setSeries s (some md)).chartConfig = s.chartConfig ∧
      (setSeries s (some md)).geometries = s.geometries) := by
  constructor
  · refine ⟨?_, ?_, ?_⟩ <;>
      simp [setSeries, initData, renderChart, sampleMarketData, layoutGeometries]
  · intro hempty
    refine ⟨?_, ?_, ?_⟩ <;>
      simp [setSeries, initData, renderChart, hempty]

/-- C2 witness: the fallback branch produces 7 shapes from the initial
state, and an empty series leaves the initial (empty) geometry in
place. -/
theorem c2_witness :
    (setSeries initState none).geometries.length = 7 ∧
    (setSeries initState (some emptyMarketData)).geometries = initState.geometries :=
  ⟨(c2_amended_null_fallback_empty_kept initState emptyMarketData).1.2.1,
   ((c2_amended_null_fallback_empty_kept initState emptyMarketData).2 rfl).2.2⟩

/-- C3 counterexample: for the flat series at price 150 (`rawMax ==
rawMin = 150`), the snapped bounds are `minPrice = 100` and
`maxPrice = 200` — they do NOT coincide, contradicting the claim that a
flat series always yields `minPrice = maxPrice`. -/
theorem c3_counterexample_flat150 :
    maxDataPrice flat150MarketData = minDataPrice flat150MarketData ∧
    (initData (some flat150MarketData) initChartConfig).2.minPrice = 100 ∧
    (initData (some flat150MarketData) initChartConfig).2.maxPrice = 200 := by
  refine ⟨?_, ?_, ?_⟩ <;> with_unfolding_all rfl

/-- C3 amended: the scale follows the claimed formulas
(`padding = (rawMax - rawMin) * 0.10`,
`minPrice = floor((rawMin - padding)/100)*100`,
`maxPrice = ceil((rawMax + padding)/100)*100`); for a flat series the
padding is 0, and `minPrice = maxPrice` holds exactly when the common
price is a multiple of 100 (the two snaps land on the same hundred only
then). -/
theorem c3_amended_scale_formulas (md : MarketData) (h : md.dataPoints ≠ [])
    (cfg : ChartConfig) (hcfg : cfg = (initData (some md) initChartConfig).2) :
    pricePadding md = (maxDataPrice md - minDataPrice md) * (1/10) ∧
    cfg.minPrice = (⌊(minDataPrice md - pricePadding md) / 100⌋ : ℚ) * 100 ∧
    cfg.maxPrice = (⌈(maxDataPrice md + pricePadding md) / 100⌉ : ℚ) * 100 ∧
    (maxDataPrice md = minDataPrice md →
      pricePadding md = 0 ∧
      (cfg.minPrice = cfg.maxPrice ↔ ∃ k : ℤ, minDataPrice md = (k : ℚ) * 100)) := by
  subst hcfg
  have hmin : (initData (some md) initChartConfig).2.minPrice = computedMinPrice md := by
    rw [initData_of_ne_nil md h]
  have hmax : (initData (some md) initChartConfig).2.maxPrice = computedMaxPrice md := by
    rw [initData_of_ne_nil md h]
  refine ⟨rfl, hmin, hmax, ?_⟩
  intro hflat
  have hpad : pricePadding md = 0 := by
    unfold pricePadding; rw [hflat]; ring
  refine ⟨hpad, ?_⟩
  have hminq : computedMinPrice md = (⌊minDataPrice md / 100⌋ : ℚ) * 100 := by
    unfold computedMinPrice; rw [hpad, sub_zero]
  have hmaxq : computedMaxPrice md = (⌈minDataPrice md / 100⌉ : ℚ) * 100 := by
    unfold computedMaxPrice; rw [hpad, add_zero, hflat]
  rw [hmin, hmax, hminq, hmaxq]
  constructor
  · intro heq
    have hcast : (⌊minDataPrice md / 100⌋ : ℚ) = (⌈minDataPrice md / 100⌉ : ℚ) :=
      mul_right_cancel₀ (by norm_num : (100:ℚ) ≠ 0) heq
    have hfc : ⌊minDataPrice md / 100⌋ = ⌈minDataPrice md / 100⌉ := by exact_mod_cast hcast
    have h1 : minDataPrice md / 100 ≤ (⌊minDataPrice md / 100⌋ : ℚ) := by
      rw [hfc]; exact Int.le_ceil _
    have h2 : (⌊minDataPrice md / 100⌋ : ℚ) ≤ minDataPrice md / 100 := Int.floor_le _
    have heqq : minDataPrice md / 100 = (⌊minDataPrice md / 100⌋ : ℚ) := le_antisymm h1 h2
    refine ⟨⌊minDataPrice md / 100⌋, ?_⟩
    have := heqq
    field_simp at this
    linarith [this]
  · rintro ⟨k, hk⟩
    have hq : minDataPrice md / 100 = (k : ℚ) := by rw [hk]; field_simp
    rw [hq, Int.floor_intCast, Int.ceil_intCast]

/-- C3 witness: the amended statement instantiated at the flat series at
price 150, whose hypotheses are discharged by evaluation. -/
theorem c3_witness :
    pricePadding flat150MarketData
      = (maxDataPrice flat150MarketData - minDataPrice flat150MarketData) * (1/10) ∧
    (initData (some flat150MarketData) initChartConfig).2.minPrice
      = (⌊(minDataPrice flat150MarketData - pricePadding flat150MarketData) / 100⌋ : ℚ) * 100 ∧
    (initData (some flat150MarketData) initChartConfig).2.maxPrice
      = (⌈(maxDataPrice flat150MarketData + pricePadding flat150MarketData) / 100⌉ : ℚ) * 100 ∧
    (maxDataPrice flat150MarketData = minDataPrice flat150MarketData →
      pricePadding flat150MarketData = 0 ∧
      ((initData (some flat150MarketData) initChartConfig).2.minPrice
          = (initData (some flat150MarketData) initChartConfig).2.maxPrice ↔
        ∃ k : ℤ, minDataPrice flat150MarketData = (k : ℚ) * 100)) :=
  c3_amended_scale_formulas flat150MarketData (by simp [flat150MarketData]) _ rfl

theorem yLabelsOf_length (minP maxP : ℚ) : (yLabelsOf minP maxP).length = 7 := by
  rw [yLabelsOf, List.length_map, List.length_range]

theorem yLabelsOf_head (minP maxP : ℚ) :
    (yLabelsOf minP maxP).head? = some maxP := by
  unfold yLabelsOf
  rw [show List.range 7 = [0, 1, 2, 3, 4, 5, 6] from rfl]
  simp

theorem yLabelsOf_getLast (minP maxP : ℚ) :
    (yLabelsOf minP maxP).getLast? = some minP := by
  unfold yLabelsOf
  rw [show List.range 7 = [0, 1, 2, 3, 4, 5, 6] from rfl]
  simp
  ring

theorem yLabelsOf_pairwise {minP maxP : ℚ} (h : minP < maxP) :
    (yLabelsOf minP maxP).Pairwise (fun a b => b < a) := by
  have hspos : 0 < (maxP - minP) / 6 := div_pos (sub_pos.mpr h) (by norm_num)
  rw [List.pairwise_iff_get]
  intro i j hij
  have hg : ∀ k : Fin (yLabelsOf minP maxP).length,
      (yLabelsOf minP maxP).get k = maxP - ((k : ℕ) : ℚ) * ((maxP - minP) / 6) := by
    intro k
    simp only [List.get_eq_getElem]
    simp [yLabelsOf]
  rw [hg i, hg j]
  have hq : ((i : ℕ) : ℚ) < ((j : ℕ) : ℚ) := by exact_mod_cast hij
  nlinarith

/-- C4 counterexample: for the flat series at price 100 the scale is
degenerate (`minPrice = maxPrice = 100`), so all 7 label values are equal
and the sequence is NOT strictly descending. -/
theorem c4_counterexample_flat_labels :
    (initData (some flatMarketData) initChartConfig).2.yAxisLabels
      = [100, 100, 100, 100, 100, 100, 100] ∧
    ¬ (initData (some flatMarketData) initChartConfig).2.yAxisLabels.Pairwise
        (fun a b => b < a) := by
  have hl : (initData (some flatMarketData) initChartConfig).2.yAxisLabels
      = [100, 100, 100, 100, 100, 100, 100] := by with_unfolding_all rfl
  refine ⟨hl, ?_⟩
  rw [hl]
  intro hp
  have h100 : (100 : ℚ) < 100 :=
    (List.pairwise_cons.mp hp).1 100 (by simp)
  exact absurd h100 (by norm_num)

/-- C4 amended: for every non-empty series the computed scale has
`minPrice ≤ maxPrice` and exactly 7 label values, evenly spaced with step
`(maxPrice - minPrice)/6`, running from `maxPrice` down to `minPrice`
inclusive; they are strictly descending whenever `minPrice < maxPrice`
(on a degenerate scale all 7 labels coincide). -/
theorem c4_amended_scale_labels (md : MarketData) (h : md.dataPoints ≠ [])
    (cfg : ChartConfig) (hcfg : cfg = (initData (some md) initChartConfig).2) :
    cfg.minPrice ≤ cfg.maxPrice ∧
    cfg.yAxisLabels.length = 7 ∧
    cfg.yAxisLabels = (List.range 7).map
      (fun i => cfg.maxPrice - (i : ℚ) * ((cfg.maxPrice - cfg.minPrice) / 6)) ∧
    cfg.yAxisLabels.head? = some cfg.maxPrice ∧
    cfg.yAxisLabels.getLast? = some cfg.minPrice ∧
    (cfg.minPrice < cfg.maxPrice →
      cfg.yAxisLabels.Pairwise (fun a b => b < a)) := by
  subst hcfg
  have hmin : (initData (some md) initChartConfig).2.minPrice = computedMinPrice md := by
    rw [initData_of_ne_nil md h]
  have hmax : (initData (some md) initChartConfig).2.maxPrice = computedMaxPrice md := by
    rw [initData_of_ne_nil md h]
  have hlab : (initData (some md) initChartConfig).2.yAxisLabels
      = yLabelsOf (computedMinPrice md) (computedMaxPrice md) := by
    rw [initData_of_ne_nil md h]
  rw [hmin, hmax, hlab]
  refine ⟨computedMinPrice_le_computedMaxPrice h, yLabelsOf_length _ _, rfl,
    yLabelsOf_head _ _, yLabelsOf_getLast _ _, fun hlt => yLabelsOf_pairwise hlt⟩

/-- C4 witness: the amended statement instantiated at the sample series. -/
theorem c4_witness :
    (initData (some sampleMarketData) initChartConfig).2.minPrice
      ≤ (initData (some sampleMarketData) initChartConfig).2.maxPrice ∧
    (initData (some sampleMarketData) initChartConfig).2.yAxisLabels.length = 7 ∧
    (initData (some sampleMarketData) initChartConfig).2.yAxisLabels
      = (List.range 7).map
        (fun i => (initData (some sampleMarketData) initChartConfig).2.maxPrice
          - (i : ℚ) * (((initData (some sampleMarketData) initChartConfig).2.maxPrice
            - (initData (some sampleMarketData) initChartConfig).2.minPrice) / 6)) ∧
    (initData (some sampleMarketData) initChartConfig).2.yAxisLabels.head?
      = some (initData (some sampleMarketData) initChartConfig).2.maxPrice ∧
    (initData (some sampleMarketData) initChartConfig).2.yAxisLabels.getLast?
      = some (initData (some sampleMarketData) initChartConfig).2.minPrice ∧
    ((initData (some sampleMarketData) initChartConfig).2.minPrice
        < (initData (some sampleMarketData) initChartConfig).2.maxPrice →
      (initData (some sampleMarketData) initChartConfig).2.yAxisLabels.Pairwise
        (fun a b => b < a)) :=
  c4_amended_scale_labels sampleMarketData (by simp [sampleMarketData]) _ rfl

/-- C5 counterexample: on the degenerate flat series the wick and body
heights are NaN (modelled `none`), so neither `wickHeight ≥ 0` nor
`bodyHeight ≥ 2` holds; and on a point violating the unenforced OHLC
invariant (`low > high`) the wick height is a negative number (-180). -/
theorem c5_counterexample_heights :
    ((setSeries initState (some flatMarketData)).geometries.map fun g => g.wickHeight)
      = [none] ∧
    ((setSeries initState (some flatMarketData)).geometries.map fun g => g.bodyHeight)
      = [none] ∧
    ((setSeries initState (some invertedMarketData)).geometries.map fun g => g.wickHeight)
      = [some (-180)] := by
  refine ⟨?_, ?_, ?_⟩ <;> with_unfolding_all rfl

/-- C5 amended: for every point whose `low ≤ high`, laid out under a
non-degenerate scale (`minPrice < maxPrice`) and a non-negative chart
height, the wick height is a finite value ≥ 0 and the body height a
finite value ≥ 2. -/
theorem c5_amended_heights (md : MarketData) (cfg : ChartConfig)
    (d : CandlestickData) (i : ℕ)
    (hrange : cfg.minPrice < cfg.maxPrice) (hH : 0 ≤ cfg.chartHeight)
    (hlh : d.low ≤ d.high) :
    (∃ wh, (createCandlestick md cfg d i).wickHeight = some wh ∧ 0 ≤ wh) ∧
    (∃ bh, (createCandlestick md cfg d i).bodyHeight = some bh ∧ 2 ≤ bh) := by
  have hr : cfg.maxPrice - cfg.minPrice ≠ 0 := ne_of_gt (sub_pos.mpr hrange)
  constructor
  · refine ⟨(d.high - d.low) / (cfg.maxPrice - cfg.minPrice) * cfg.chartHeight, ?_, ?_⟩
    · rw [createCandlestick_wickHeight, toY_of_range_ne hr, toY_of_range_ne hr]
      simp only [jsSub]
      congr 1
      field_simp
      ring
    · exact mul_nonneg
        (div_nonneg (sub_nonneg.mpr hlh) (le_of_lt (sub_pos.mpr hrange))) hH
  · refine ⟨max |(cfg.chartHeight - (d.close - cfg.minPrice) / (cfg.maxPrice - cfg.minPrice) * cfg.chartHeight + 20)
        - (cfg.chartHeight - (d.«open» - cfg.minPrice) / (cfg.maxPrice - cfg.minPrice) * cfg.chartHeight + 20)| 2,
      ?_, le_max_right _ _⟩
    rw [createCandlestick_bodyHeight, toY_of_range_ne hr, toY_of_range_ne hr]
    rfl

/-- C5 witness: the amended statement at the first sample point under the
initial (non-degenerate) configuration. -/
theorem c5_witness :
    (∃ wh, (createCandlestick sampleMarketData initChartConfig
        { time := "6h ago", «open» := 1180, high := 1220, low := 1150, close := 1200, volume := 45 }
        0).wickHeight = some wh ∧ 0 ≤ wh) ∧
    (∃ bh, (createCandlestick sampleMarketData initChartConfig
        { time := "6h ago", «open» := 1180, high := 1220, low := 1150, close := 1200, volume := 45 }
        0).bodyHeight = some bh ∧ 2 ≤ bh) :=
  c5_amended_heights sampleMarketData initChartConfig _ 0
    (by norm_num [initChartConfig]) (by norm_num [initChartConfig]) (by norm_num)

/-- C6: horizontal placement follows `spacing = chartWidth / n` and
`x = 20 + i*spacing + (spacing - candleWidth)/2`; changing only the chart
width rescales the spacing proportionally (`spacing' * w = spacing * w'`)
and recomputes `x` by the same formula, while every price-dependent
vertical value (wick top/height, body top/height) is unchanged. -/
theorem c6_resize_recomputes_x_keeps_y (md : MarketData) (cfg : ChartConfig)
    (d : CandlestickData) (i : ℕ) (w2 : ℚ) :
    (createCandlestick md cfg d i).x
      = 20 + (i : ℚ) * spacingOf md cfg + (spacingOf md cfg - cfg.candleWidth) / 2 ∧
    spacingOf md cfg = cfg.chartWidth / slotCount md ∧
    (createCandlestick md { cfg with chartWidth := w2 } d i).x
      = 20 + (i : ℚ) * spacingOf md { cfg with chartWidth := w2 }
        + (spacingOf md { cfg with chartWidth := w2 } - cfg.candleWidth) / 2 ∧
    spacingOf md { cfg with chartWidth := w2 } * cfg.chartWidth
      = spacingOf md cfg * w2 ∧
    (createCandlestick md { cfg with chartWidth := w2 } d i).wickTop
      = (createCandlestick md cfg d i).wickTop ∧
    (createCandlestick md { cfg with chartWidth := w2 } d i).wickHeight
      = (createCandlestick md cfg d i).wickHeight ∧
    (createCandlestick md { cfg with chartWidth := w2 } d i).bodyTop
      = (createCandlestick md cfg d i).bodyTop ∧
    (createCandlestick md { cfg with chartWidth := w2 } d i).bodyHeight
      = (createCandlestick md cfg d i).bodyHeight := by
  refine ⟨rfl, rfl, rfl, ?_, rfl, rfl, rfl, rfl⟩
  unfold spacingOf
  ring

/-- C7: a non-positive observed container width is ignored — the state
(including chart width and the published geometry) is left untouched and
no error is raised. -/
theorem c7_nonpositive_resize_ignored (s : ComponentState) (w : ℚ) (h : w ≤ 0) :
    onResize s w = s := by
  simp [onResize, not_lt.mpr h]

/-- C7 witness: a zero-width notification leaves the initial state
unchanged. -/
theorem c7_witness : onResize initState 0 = initState :=
  c7_nonpositive_resize_ignored initState 0 (by norm_num)

/-- C8 counterexample: a new 7-point series whose `time` labels all
differ from the stored ones does NOT update the x-axis labels, because
the stored label count (7) equals the new series length: the published
labels remain the previous defaults, not the points' `time` fields. -/
theorem c8_counterexample_same_length_stale_labels :
    (setSeries initState (some renamedTimesMarketData)).chartConfig.xAxisLabels
      = ["6h ago", "5h ago", "4h ago", "3h ago", "2h ago", "1h ago", "Now"] ∧
    renamedTimesMarketData.dataPoints.map (fun p => p.time)
      = ["T0", "T1", "T2", "T3", "T4", "T5", "T6"] ∧
    (setSeries initState (some renamedTimesMarketData)).chartConfig.xAxisLabels
      ≠ renamedTimesMarketData.dataPoints.map (fun p => p.time) := by
  have h1 : (setSeries initState (some renamedTimesMarketData)).chartConfig.xAxisLabels
      = ["6h ago", "5h ago", "4h ago", "3h ago", "2h ago", "1h ago", "Now"] := by
    with_unfolding_all rfl
  have h2 : renamedTimesMarketData.dataPoints.map (fun p => p.time)
      = ["T0", "T1", "T2", "T3", "T4", "T5", "T6"] := by
    with_unfolding_all rfl
  refine ⟨h1, h2, ?_⟩
  rw [h1, h2]
  simp

/-- C8 amended: after a data change over a non-empty series, the x-axis
labels equal the points' `time` fields only when the stored label count
differs from the series length; when the counts are equal, the previous
labels are retained unchanged. -/
theorem c8_amended_xaxis_update_conditional (md : MarketData) (cfg : ChartConfig)
    (h : md.dataPoints ≠ []) :
    (cfg.xAxisLabels.length ≠ md.dataPoints.length →
      (initData (some md) cfg).2.xAxisLabels = md.dataPoints.map fun p => p.time) ∧
    (cfg.xAxisLabels.length = md.dataPoints.length →
      (initData (some md) cfg).2.xAxisLabels = cfg.xAxisLabels) := by
  rw [initData_of_ne_nil md h]
  constructor
  · intro hne
    simp only [if_pos hne]
  · intro heq
    simp only [if_neg (not_ne_iff.mpr heq)]

/-- C8 witness: a 1-point series (length different from the stored 7
labels) does update the labels, and the 7-point renamed series (equal
length) retains the stored defaults. -/
theorem c8_witness :
    (initData (some flatMarketData) initChartConfig).2.xAxisLabels
      = flatMarketData.dataPoints.map (fun p => p.time) ∧
    (initData (some renamedTimesMarketData) initChartConfig).2.xAxisLabels
      = initChartConfig.xAxisLabels :=
  ⟨(c8_amended_xaxis_update_conditional flatMarketData initChartConfig
      (by simp [flatMarketData])).1 (by simp [flatMarketData, initChartConfig]),
   (c8_amended_xaxis_update_conditional renamedTimesMarketData initChartConfig
      (by simp [renamedTimesMarketData])).2 (by simp [renamedTimesMarketData, initChartConfig])⟩

/-- C9: the geometry a render pass publishes is a pure function of the
data and the configuration — for a non-empty series it equals
`layoutGeometries` of exactly those two inputs, two states agreeing on
data and configuration render identical geometry regardless of any
previously stored geometry, and rendering twice is the same as rendering
once. -/
theorem c9_layout_pure_idempotent (s t : ComponentState) (md : MarketData)
    (hs : s.marketData = some md) (ht : t.marketData = some md)
    (hcfg : t.chartConfig = s.chartConfig) :
    (md.dataPoints ≠ [] →
      (renderChart s).geometries = layoutGeometries md s.chartConfig ∧
      (renderChart t).geometries = (renderChart s).geometries) ∧
    renderChart (renderChart s) = renderChart s := by
  constructor
  · intro hne
    have hlen : ¬ md.dataPoints.length = 0 := by
      simpa using (List.length_pos.mpr hne).ne'
    constructor
    · simp [renderChart, hs, hlen]
    · simp [renderChart, hs, ht, hlen, hcfg]
  · cases hmd : s.marketData with
    | none => simp [renderChart, hmd]
    | some md' =>
      by_cases hl : md'.dataPoints.length = 0
      · simp [renderChart, hmd, hl]
      · simp [renderChart, hmd, hl]

/-- C9 witness: two ready states sharing the sample data and initial
configuration but holding different stored geometry render the same
geometry, and re-rendering is a no-op. -/
theorem c9_witness :
    (renderChart readyState).geometries
      = layoutGeometries sampleMarketData readyState.chartConfig ∧
    (renderChart readyStateAlt).geometries = (renderChart readyState).geometries ∧
    renderChart (renderChart readyState) = renderChart readyState := by
  have h := c9_layout_pure_idempotent readyState readyStateAlt sampleMarketData rfl rfl rfl
  have hne : sampleMarketData.dataPoints ≠ [] := by simp [sampleMarketData]
  exact ⟨(h.1 hne).1, (h.1 hne).2, h.2⟩

/-- C10 (implicit): for every non-empty series every OHLC price field of
every point lies inside the computed `[minPrice, maxPrice]`, and when the
range is non-degenerate every in-range price maps to a pixel inside
`[20, chartHeight + 20]`. -/
theorem c10_prices_within_scale (md : MarketData) (h : md.dataPoints ≠ [])
    (cfg : ChartConfig) (hcfg : cfg = (initData (some md) initChartConfig).2) :
    (∀ pt ∈ md.dataPoints,
      cfg.minPrice ≤ pt.«open» ∧ pt.«open» ≤ cfg.maxPrice ∧
      cfg.minPrice ≤ pt.high ∧ pt.high ≤ cfg.maxPrice ∧
      cfg.minPrice ≤ pt.low ∧ pt.low ≤ cfg.maxPrice ∧
      cfg.minPrice ≤ pt.close ∧ pt.close ≤ cfg.maxPrice) ∧
    (cfg.minPrice < cfg.maxPrice →
      ∀ price : ℚ, cfg.minPrice ≤ price → price ≤ cfg.maxPrice →
        ∃ y, toY cfg price = some y ∧ 20 ≤ y ∧ y ≤ cfg.chartHeight + 20) := by
  subst hcfg
  have hmin : (initData (some md) initChartConfig).2.minPrice = computedMinPrice md := by
    rw [initData_of_ne_nil md h]
  have hmax : (initData (some md) initChartConfig).2.maxPrice = computedMaxPrice md := by
    rw [initData_of_ne_nil md h]
  have hht : (initData (some md) initChartConfig).2.chartHeight = 360 := by
    rw [initData_of_ne_nil md h]
    rfl
  have hpad := pricePadding_nonneg h
  have hfl := computedMinPrice_le md
  have hce := le_computedMaxPrice md
  constructor
  · intro pt hmem
    obtain ⟨hhm, hlm, hom, hcm⟩ := mem_pricesOf hmem
    have ho1 : minDataPrice md ≤ pt.«open» := listMin_le_of_mem hom
    have ho2 : pt.«open» ≤ maxDataPrice md := le_listMax_of_mem hom
    have hh1 : minDataPrice md ≤ pt.high := listMin_le_of_mem hhm
    have hh2 : pt.high ≤ maxDataPrice md := le_listMax_of_mem hhm
    have hl1 : minDataPrice md ≤ pt.low := listMin_le_of_mem hlm
    have hl2 : pt.low ≤ maxDataPrice md := le_listMax_of_mem hlm
    have hc1 : minDataPrice md ≤ pt.close := listMin_le_of_mem hcm
    have hc2 : pt.close ≤ maxDataPrice md := le_listMax_of_mem hcm
    rw [hmin, hmax]
    refine ⟨by linarith, by linarith, by linarith, by linarith,
      by linarith, by linarith, by linarith, by linarith⟩
  · intro hlt price hp1 hp2
    rw [hmin, hmax] at hlt
    rw [hmin] at hp1
    rw [hmax] at hp2
    have hr : (initData (some md) initChartConfig).2.maxPrice
        - (initData (some md) initChartConfig).2.minPrice ≠ 0 := by
      rw [hmin, hmax]
      exact ne_of_gt (sub_pos.mpr hlt)
    rw [toY_of_range_ne hr, hmin, hmax, hht]
    have hRpos : (0:ℚ) < computedMaxPrice md - computedMinPrice md := sub_pos.mpr hlt
    have ht0 : 0 ≤ (price - computedMinPrice md) / (computedMaxPrice md - computedMinPrice md) :=
      div_nonneg (by linarith) (le_of_lt hRpos)
    have ht1 : (price - computedMinPrice md) / (computedMaxPrice md - computedMinPrice md) ≤ 1 :=
      (div_le_one hRpos).mpr (by linarith)
    exact ⟨_, rfl, by nlinarith, by nlinarith⟩

/-- C10 witness: under the scale computed from the sample series, the
price 1247 maps into the vertical band `[20, chartHeight + 20]`. -/
theorem c10_witness :
    ∃ y, toY (initData (some sampleMarketData) initChartConfig).2 1247 = some y ∧
      20 ≤ y ∧ y ≤ (initData (some sampleMarketData) initChartConfig).2.chartHeight + 20 := by
  have e1 : (initData (some sampleMarketData) initChartConfig).2.minPrice = 800 := by
    with_unfolding_all rfl
  have e2 : (initData (some sampleMarketData) initChartConfig).2.maxPrice = 1500 := by
    with_unfolding_all rfl
  refine (c10_prices_within_scale sampleMarketData (by simp [sampleMarketData]) _ rfl).2
    ?_ 1247 ?_ ?_
  · rw [e1, e2]; norm_num
  · rw [e1]; norm_num
  · rw [e2]; norm_num
